import Mathlib

/-!
Shallow embedding of the "Thought of the Day" tutorial repository
(datacamp-api-course) for checking its natural-language specification.

Embedded source files:
* `week-2/tutorial/solutions/steps-5-8-combined-solution.py` — the in-memory
  Flask backend: `validate_thought_data`, `get_thoughts`, `create_thought`,
  `handle_thought` (GET/PUT/PATCH/DELETE), `bulk_delete_thoughts`,
  `clear_all_thoughts`.
* `week-3/tutorial/raw-db-connector/repository.py` — `ThoughtRepository`
  over raw SQL (`create`, `create_bulk`, `_validate_thought`).
* `week-3/tutorial/ORM/models.py` and `week-3/tutorial/ORM/repository.py` —
  the SQLAlchemy backend (`Thought.from_dict`, `validate_sort_field`,
  `ThoughtRepository.create`, `create_bulk`, `get_all`).

Modelling conventions:
* Python strings are Lean `String`s.  `str.strip()` is `pyStrip` (ASCII
  whitespace, as in all repository data), string comparison is the
  code-point lexicographic `pyStrLe`, both written over `List Char` so
  that every definition evaluates by kernel reduction.
* JSON values reaching the validators are modelled by `BodyVal`/`TagVal`;
  request bodies by `Candidate` records of the keys the handlers read.
  A non-string tag value is `TagVal.tother k`, where distinct `k` stand
  for distinct JSON values (so Python set-equality is `TagVal` equality).
* Wall-clock timestamps (`datetime.now(...).isoformat()`) are passed in as
  an explicit `now : String` argument; the database clock likewise.
* Fallible handlers return `Except (Nat × String)` carrying the HTTP status
  code and message produced by `create_error_response`.
* Python `sorted` (stable, ascending) is modelled by the stable insertion
  sort `pySortBy`; Python slice `l[:k]` by `pySliceTo` (negative indices
  count from the end).
-/

/-- Python `str.strip()` for the ASCII whitespace used in this repository. -/
def pyStrip (s : String) : String :=
  ⟨((s.toList.dropWhile Char.isWhitespace).reverse.dropWhile Char.isWhitespace).reverse⟩

/-- Code-point lexicographic `<` on char lists (Python string comparison). -/
def strLtList : List Char → List Char → Bool
  | [], [] => false
  | [], _ :: _ => true
  | _ :: _, [] => false
  | a :: as, b :: bs => if a < b then true else if b < a then false else strLtList as bs

/-- Python `a <= b` on strings. -/
def pyStrLe (a b : String) : Bool :=
  !(strLtList b.toList a.toList)

/-- A JSON value appearing inside a `tags` array.  `tother k` is any
non-string value; distinct indices `k` denote distinct values. -/
inductive TagVal where
  | tstr (s : String)
  | tother (k : Nat)
deriving DecidableEq, Repr

/-- A JSON value bound to a top-level body key: a string, an array, or
any other value. -/
inductive BodyVal where
  | bstr (s : String)
  | blist (l : List TagVal)
  | bother
deriving DecidableEq, Repr

/-- A parsed JSON request body, restricted to the keys the week-2 handlers
read (`text`, `tags`, `author`).  `hasOtherKeys` records whether the dict
carries further keys (their values are never read by the handlers).
`author` values are modelled as strings; the handlers never validate the
author field. -/
structure Candidate where
  text : Option BodyVal
  tags : Option BodyVal
  author : Option String
  hasOtherKeys : Bool
deriving DecidableEq, Repr

/-- Python falsiness of the body dict: `not data` is true for an absent
body and for an empty dict. -/
def Candidate.isEmptyDict (c : Candidate) : Bool :=
  c.text.isNone && c.tags.isNone && c.author.isNone && !c.hasOtherKeys

/-- `len(set(l))`: the number of distinct elements of a tags array. -/
def pySetSize (l : List TagVal) : Nat :=
  (l.foldl (fun acc x => if acc.contains x then acc else x :: acc) []).length

/-- `re.match(r'^[a-zA-Z0-9-]+$', tag)` from the combined solution:
one or more ASCII alphanumerics or hyphens; Python's `$` also accepts one
trailing newline. -/
def regexTagMatch (s : String) : Bool :=
  let cs := s.toList
  let core := if cs.getLast? == some '\n' then cs.dropLast else cs
  !core.isEmpty && core.all (fun c => c.isAlphanum || c == '-')

/-- The per-tag loop of `validate_thought_data` (combined solution,
lines 54-63): the first offending tag decides the message. -/
def checkTags : List TagVal → Option String
  | [] => none
  | .tstr s :: rest =>
      if (pyStrip s).length < 2 then some "Each tag must be at least 2 characters long"
      else if s.length > 20 then some "Each tag must not exceed 20 characters"
      else if !regexTagMatch s then
        some "Tags must contain only alphanumeric characters and hyphens"
      else checkTags rest
  | .tother _ :: _ => some "All tags must be strings"

/-- The `text` section of `validate_thought_data`.  `optionalFields` is the
Python `partial` flag. -/
def validateText (c : Candidate) (optionalFields : Bool) : Option String :=
  match c.text with
  | some (.bstr s) =>
      if (pyStrip s).length < 5 then some "Field \x27text\x27 must be at least 5 characters long"
      else if (pyStrip s).length > 280 then some "Field \x27text\x27 must not exceed 280 characters"
      else none
  | some _ => some "Field \x27text\x27 must be a string"
  | none => if !optionalFields then some "Field \x27text\x27 is required" else none

/-- The `tags` section of `validate_thought_data`.  The duplicate check is
Python's `len(tags) != len(set(tags))`. -/
def validateTags (c : Candidate) (optionalFields : Bool) : Option String :=
  match c.tags with
  | some (.blist l) =>
      if l.length == 0 then some "At least one tag is required"
      else if l.length > 5 then some "Maximum 5 tags allowed"
      else if pySetSize l != l.length then some "Duplicate tags are not allowed"
      else checkTags l
  | some _ => some "Field \x27tags\x27 must be an array"
  | none => if !optionalFields then some "Field \x27tags\x27 is required" else none

/-- `validate_thought_data(data, partial)` from
`steps-5-8-combined-solution.py`: returns `some message` exactly when the
Python function returns `(False, message)`. -/
def validate_thought_data (data : Option Candidate) (optionalFields : Bool) : Option String :=
  match data with
  | none => some "Request body is required"
  | some c =>
      if c.isEmptyDict then some "Request body is required"
      else
        match validateText c optionalFields with
        | some e => some e
        | none => validateTags c optionalFields

/-- A stored thought record of the week-2 in-memory backend. -/
structure Thought where
  id : Nat
  text : String
  tags : List String
  author : String
  timestamp : String
  updated_at : Option String
deriving DecidableEq, Repr

/-- The module-level mutable state of the week-2 backend:
`thoughts_storage` and the `next_id` counter. -/
structure ServerState where
  thoughts_storage : List Thought
  next_id : Nat
deriving DecidableEq, Repr

/-- The five seeded records of `steps-5-8-combined-solution.py`. -/
def seededThoughts : List Thought :=
  [ { id := 1, text := "Flask is awesome!", tags := ["flask", "python"],
      author := "Alice", timestamp := "2025-10-20T10:00:00Z", updated_at := none },
    { id := 2, text := "REST APIs are everywhere", tags := ["api-design"],
      author := "Bob", timestamp := "2025-10-20T11:00:00Z", updated_at := none },
    { id := 3, text := "Learning by doing works", tags := ["learning", "growth"],
      author := "Alice", timestamp := "2025-10-20T12:00:00Z", updated_at := none },
    { id := 4, text := "Python is versatile", tags := ["python", "programming"],
      author := "Charlie", timestamp := "2025-10-20T13:00:00Z", updated_at := none },
    { id := 5, text := "Flask makes APIs easy", tags := ["flask", "python", "api-design"],
      author := "Alice", timestamp := "2025-10-20T14:00:00Z", updated_at := none } ]

/-- The seeded start state (`next_id = 6`). -/
def seededState : ServerState :=
  { thoughts_storage := seededThoughts, next_id := 6 }

/-- Stable insertion placing `x` before the first element `y` with
`le x y`; folded over the list this is a stable ascending sort, the
behaviour of Python's `sorted`. -/
def insertLe (le : α → α → Bool) (x : α) : List α → List α
  | [] => [x]
  | y :: ys => if le x y then x :: y :: ys else y :: insertLe le x ys

/-- Stable ascending sort (Python `sorted(l, key=...)` once `le` compares
the keys). -/
def pySortBy (le : α → α → Bool) : List α → List α
  | [] => []
  | x :: xs => insertLe le x (pySortBy le xs)

/-- Python slice `l[:k]`, including the negative-index case. -/
def pySliceTo (l : List α) (k : Int) : List α :=
  if 0 ≤ k then l.take k.toNat else l.take (l.length - (-k).toNat)

/-- Python `int(s)` on the strings this API receives: optional surrounding
whitespace, optional sign, one or more ASCII digits (digit-group
underscores are not modelled; no claim uses them). -/
def pyParseInt (s : String) : Option Int :=
  let digitsVal : List Char → Int :=
    fun l => l.foldl (fun a c => a * 10 + ((c.toNat : Int) - 48)) 0
  match (pyStrip s).toList with
  | [] => none
  | c :: rest =>
      if c == '+' then
        if !rest.isEmpty && rest.all Char.isDigit then some (digitsVal rest) else none
      else if c == '-' then
        if !rest.isEmpty && rest.all Char.isDigit then some (-(digitsVal rest)) else none
      else
        if (c :: rest).all Char.isDigit then some (digitsVal (c :: rest)) else none

/-- Truthiness of an optional query-parameter string (`if param:`). -/
def optTruthy : Option String → Bool
  | none => false
  | some s => !(s == "")

/-- The tag filter of `get_thoughts`: `tag_filter in t["tags"]`. -/
def applyTagFilter (tagF : Option String) (l : List Thought) : List Thought :=
  match tagF with
  | some s => if s == "" then l else l.filter (fun t => t.tags.contains s)
  | none => l

/-- The author filter of `get_thoughts`: exact equality
`t["author"] == author_filter`. -/
def applyAuthorFilter (authorF : Option String) (l : List Thought) : List Thought :=
  match authorF with
  | some s => if s == "" then l else l.filter (fun t => t.author == s)
  | none => l

/-- The sort step of `get_thoughts` (`sorted` with the selected key;
`sort_by` is already validated to be id/author/timestamp). -/
def sortThoughts (sort_by : String) (l : List Thought) : List Thought :=
  if sort_by == "author" then pySortBy (fun a b => pyStrLe a.author b.author) l
  else if sort_by == "timestamp" then pySortBy (fun a b => pyStrLe a.timestamp b.timestamp) l
  else pySortBy (fun a b => decide (a.id ≤ b.id)) l

/-- The payload of a successful `GET /api/v1/thoughts` (the `total` and
`thoughts` response fields). -/
structure ListResult where
  total : Nat
  thoughts : List Thought
deriving DecidableEq, Repr

/-- The `min_tags` step of `get_thoughts`: when the parameter is truthy it
must parse as an integer (else a 400 "min_tags must be a number") and
filters records by tag count. -/
def minTagsStage (results : List Thought) (minTagsF : Option String) :
    Except (Nat × String) (List Thought) :=
  match if optTruthy minTagsF then some (minTagsF.getD "") else none with
  | some m =>
      match pyParseInt m with
      | none => .error (400, "min_tags must be a number")
      | some n => .ok (results.filter (fun t => n ≤ (t.tags.length : Int)))
  | none => .ok results

/-- The `limit` step of `get_thoughts`: when the parameter is truthy it
must parse as an integer (else a 400 "Limit must be a number") and slices
the final sequence Python-style. -/
def limitStage (results : List Thought) (limitF : Option String) :
    Except (Nat × String) (List Thought) :=
  match if optTruthy limitF then some (limitF.getD "") else none with
  | some ls =>
      match pyParseInt ls with
      | none => .error (400, "Limit must be a number")
      | some k => .ok (pySliceTo results k)
  | none => .ok results

/-- `get_thoughts` from `steps-5-8-combined-solution.py`: sort validation,
tag and author filters, min_tags, sorting, then limit, in source order.
Note that the reported `total` is computed after the limit is applied. -/
def get_thoughts (storage : List Thought)
    (tagF authorF limitF sortF minTagsF : Option String) :
    Except (Nat × String) ListResult :=
  if !(sortF.getD "id" == "id" || sortF.getD "id" == "author" ||
       sortF.getD "id" == "timestamp") then
    .error (400, "Sort must be one of: id, author, timestamp")
  else
    match minTagsStage (applyAuthorFilter authorF (applyTagFilter tagF storage)) minTagsF with
    | .error e => .error e
    | .ok results =>
        match limitStage (sortThoughts (sortF.getD "id") results) limitF with
        | .error e => .error e
        | .ok final => .ok { total := final.length, thoughts := final }

/-- Extract the strings of a tags array; `none` when a non-string slipped
through (unreachable once `validate_thought_data` has accepted the body). -/
def strTags : List TagVal → Option (List String)
  | [] => some []
  | .tstr s :: rest => (strTags rest).map (fun l => s :: l)
  | .tother _ :: _ => none

/-- `find_thought_by_id`: first stored record with the given id. -/
def find_thought_by_id (storage : List Thought) (id : Nat) : Option Thought :=
  storage.find? (fun t => t.id == id)

/-- Replace the first record carrying `id` (the Python code mutates the
dict returned by `find_thought_by_id` in place). -/
def updateFirst (storage : List Thought) (id : Nat) (f : Thought → Thought) : List Thought :=
  match storage with
  | [] => []
  | t :: rest => if t.id == id then f t :: rest else t :: updateFirst rest id f

/-- `create_thought` (POST): validate, then append a record with a fresh
id, stripped text, per-tag stripped tags, defaulted author, the current
time, and `updated_at = None`.  The 500 branches mirror the generic
`except Exception` handler and are unreachable for validated bodies. -/
def create_thought (s : ServerState) (data : Option Candidate) (now : String) :
    ServerState × Except (Nat × String) Thought :=
  match validate_thought_data data false with
  | some msg => (s, .error (400, msg))
  | none =>
      match data with
      | some c =>
          match c.text, c.tags with
          | some (.bstr txt), some (.blist l) =>
              match strTags l with
              | some tags =>
                  let t : Thought :=
                    { id := s.next_id, text := pyStrip txt,
                      tags := tags.map pyStrip,
                      author := c.author.getD "Anonymous",
                      timestamp := now, updated_at := none }
                  ({ thoughts_storage := s.thoughts_storage ++ [t],
                     next_id := s.next_id + 1 }, .ok t)
              | none => (s, .error (500, "Internal server error"))
          | _, _ => (s, .error (500, "Internal server error"))
      | none => (s, .error (500, "Internal server error"))

/-- The PUT branch of `handle_thought`: full update of text and tags
(author and timestamp are left as they are), stamping `updated_at`. -/
def put_thought (s : ServerState) (id : Nat) (data : Option Candidate) (now : String) :
    ServerState × Except (Nat × String) Thought :=
  match find_thought_by_id s.thoughts_storage id with
  | none => (s, .error (404, "Thought with ID " ++ toString id ++ " not found"))
  | some t =>
      match validate_thought_data data false with
      | some msg => (s, .error (400, msg))
      | none =>
          match data with
          | some c =>
              match c.text, c.tags with
              | some (.bstr txt), some (.blist l) =>
                  match strTags l with
                  | some tags =>
                      let t2 : Thought :=
                        { t with text := pyStrip txt, tags := tags.map pyStrip,
                                 updated_at := some now }
                      ({ s with thoughts_storage := updateFirst s.thoughts_storage id (fun _ => t2) },
                       .ok t2)
                  | none => (s, .error (500, "Internal server error"))
              | _, _ => (s, .error (500, "Internal server error"))
          | none => (s, .error (500, "Internal server error"))

/-- Apply the PATCH body to the found record: only the supplied fields are
replaced, and `updated_at` is stamped unconditionally. -/
def patchApply (c : Candidate) (now : String) (t : Thought) : Option Thought :=
  let t1 :=
    match c.text with
    | some (.bstr txt) => some { t with text := pyStrip txt }
    | some _ => none
    | none => some t
  match t1 with
  | none => none
  | some t1 =>
      match c.tags with
      | some (.blist l) =>
          match strTags l with
          | some tags => some { t1 with tags := tags.map pyStrip, updated_at := some now }
          | none => none
      | some _ => none
      | none => some { t1 with updated_at := some now }

/-- The PATCH branch of `handle_thought`: partial validation, then
field-wise merge; `updated_at` is stamped even when no field is present. -/
def patch_thought (s : ServerState) (id : Nat) (data : Option Candidate) (now : String) :
    ServerState × Except (Nat × String) Thought :=
  match find_thought_by_id s.thoughts_storage id with
  | none => (s, .error (404, "Thought with ID " ++ toString id ++ " not found"))
  | some t =>
      match validate_thought_data data true with
      | some msg => (s, .error (400, msg))
      | none =>
          match data with
          | some c =>
              match patchApply c now t with
              | some t2 =>
                  ({ s with thoughts_storage := updateFirst s.thoughts_storage id (fun _ => t2) },
                   .ok t2)
              | none => (s, .error (500, "Internal server error"))
          | none => (s, .error (500, "Internal server error"))

/-- The DELETE branch of `handle_thought`: remove the found record
(`erase` of the first record with that id). -/
def delete_thought (s : ServerState) (id : Nat) :
    ServerState × Except (Nat × String) Unit :=
  match find_thought_by_id s.thoughts_storage id with
  | none => (s, .error (404, "Thought with ID " ++ toString id ++ " not found"))
  | some _ =>
      ({ s with thoughts_storage := s.thoughts_storage.eraseP (fun t => t.id == id) }, .ok ())

/-- `bulk_delete_thoughts` (DELETE /thoughts/bulk?tag=...): delete every
record carrying the tag; returns the number removed. -/
def bulk_delete_thoughts (s : ServerState) (tagF : Option String) :
    ServerState × Except (Nat × String) Nat :=
  if !optTruthy tagF then
    (s, .error (400, "Query parameter \x27tag\x27 is required"))
  else
    let tag := tagF.getD ""
    let kept := s.thoughts_storage.filter (fun t => !(t.tags.contains tag))
    let removed := s.thoughts_storage.length - kept.length
    ({ s with thoughts_storage := kept }, .ok removed)

/-- `clear_all_thoughts` (DELETE /thoughts/clear): empty the store and
reset `next_id` to 1. -/
def clear_all_thoughts (_s : ServerState) : ServerState × Except (Nat × String) Nat :=
  ({ thoughts_storage := [], next_id := 1 }, .ok _s.thoughts_storage.length)

/-- Python `str.upper()` (ASCII). -/
def pyUpper (s : String) : String :=
  ⟨s.toList.map Char.toUpper⟩

/-- The error taxonomy of the week-3 backends (`db.py` / `exceptions.py`).
`ValidationError` and `NotFoundError` are subclasses of `DatabaseError`;
the three cases the apps map to 400 / 404 / 500 respectively. -/
inductive DbErr where
  | validationError (msg : String)
  | notFoundError (msg : String)
  | databaseError (msg : String)
deriving DecidableEq, Repr

/-- The HTTP status the ORM `app.py` handlers give each exception class. -/
def dbErrStatus : DbErr → Nat
  | .validationError _ => 400
  | .notFoundError _ => 404
  | .databaseError _ => 500

/-- A candidate body for the raw-SQL `ThoughtRepository`.  `importance` is
restricted to present-integer or absent (non-integer values only change
the error message and exercise no claim). -/
structure RawCand where
  text : Option String
  category : Option String
  importance : Option Int
deriving DecidableEq, Repr

/-- The category whitelist of `_validate_thought`. -/
def rawValidCategories : List String :=
  ["personal", "work", "random", "inspiration", "todo"]

/-- `_validate_thought` of the raw-SQL repository: collects all rule
violations and joins them with "; ", or `none` when the data is valid. -/
def rawValidate (d : RawCand) : Option String :=
  let e1 := if (d.text.getD "") == "" then ["Text is required"] else []
  let e2 :=
    match d.text with
    | some t =>
        if (pyStrip t).length < 3 then ["Text must be at least 3 characters"]
        else if t.length > 500 then ["Text must be no more than 500 characters"]
        else []
    | none => []
  let e3 :=
    match d.category with
    | some c =>
        if c == "" then []
        else if rawValidCategories.contains c then []
        else ["Category must be one of: personal, work, random, inspiration, todo"]
    | none => []
  let e4 :=
    match d.importance with
    | some i => if 1 ≤ i && i ≤ 10 then [] else ["Importance must be between 1 and 10"]
    | none => []
  let errs := e1 ++ e2 ++ e3 ++ e4
  if errs.isEmpty then none else some (String.intercalate "; " errs)

/-- A row of the raw-SQL `thoughts` table (the columns `create` touches;
the table schema itself is not under `src/`). -/
structure RawRow where
  id : Nat
  text : String
  category : String
  importance : Int
  created_at : String
deriving DecidableEq, Repr

/-- The raw-SQL table plus its id sequence. -/
structure RawStore where
  rows : List RawRow
  next_id : Nat
deriving DecidableEq, Repr

/-- The row a raw-SQL INSERT produces: note the text is stored exactly as
submitted, without trimming. -/
def rawInsertRow (nid : Nat) (d : RawCand) (now : String) : RawRow :=
  { id := nid, text := d.text.getD "",
    category := d.category.getD "random",
    importance := d.importance.getD 5, created_at := now }

/-- `ThoughtRepository.create` of the raw-SQL backend. -/
def rawCreate (st : RawStore) (d : RawCand) (now : String) :
    RawStore × Except DbErr RawRow :=
  match rawValidate d with
  | some e => (st, .error (.validationError e))
  | none =>
      let r := rawInsertRow st.next_id d now
      ({ rows := st.rows ++ [r], next_id := st.next_id + 1 }, .ok r)

/-- The `for i, ... in enumerate(...)` validation loops of both
`create_bulk` implementations: index (from `i`) and message of the first
candidate on which `f` reports an error. -/
def firstSomeIdx (f : a → Option String) (i : Nat) : List a → Option (Nat × String)
  | [] => none
  | c :: rest =>
      match f c with
      | some e => some (i, e)
      | none => firstSomeIdx f (i + 1) rest

/-- The validation loop of the raw `create_bulk`. -/
def firstInvalidRaw (i : Nat) (l : List RawCand) : Option (Nat × String) :=
  firstSomeIdx rawValidate i l

/-- Rows created by the transactional INSERTs of `create_bulk`. -/
def rawRowsFrom (nid : Nat) (now : String) : List RawCand → List RawRow
  | [] => []
  | c :: rest => rawInsertRow nid c now :: rawRowsFrom (nid + 1) now rest

/-- `ThoughtRepository.create_bulk` of the raw-SQL backend: empty-list and
over-100 guards, then all-candidates-first validation naming the first
offending 1-based index, then one transaction inserting every row. -/
def rawCreateBulk (st : RawStore) (l : List RawCand) (now : String) :
    RawStore × Except DbErr (List RawRow) :=
  if l.isEmpty then (st, .error (.validationError "Thoughts list cannot be empty"))
  else if l.length > 100 then
    (st, .error (.validationError "Cannot create more than 100 thoughts at once"))
  else
    match firstInvalidRaw 0 l with
    | some (i, e) =>
        (st, .error (.validationError
          ("Validation failed for thought " ++ toString (i + 1) ++ ": " ++ e)))
    | none =>
        let rows := rawRowsFrom st.next_id now l
        ({ rows := st.rows ++ rows, next_id := st.next_id + l.length }, .ok rows)

/-- A candidate body for the ORM backend (`Thought.from_dict`).  Values are
restricted to the shapes the claims exercise: a present `text`/`category`
is a string, a present `importance` an integer (other shapes only change
the error message). -/
structure OrmCand where
  text : Option String
  category : Option String
  importance : Option Int
deriving DecidableEq, Repr

/-- The validated constructor arguments `Thought(text, category, importance)`. -/
structure OrmNew where
  text : String
  category : String
  importance : Int
deriving DecidableEq, Repr

/-- `Thought.from_dict` (ORM `models.py`): text truthiness, importance
range, category length, in source order.  The text is kept exactly as
submitted. -/
def orm_from_dict (d : OrmCand) : Except String OrmNew :=
  if (d.text.getD "") == "" then .error "Text field is required"
  else if !(1 ≤ d.importance.getD 5 && d.importance.getD 5 ≤ 10) then
    .error "Importance must be an integer between 1 and 10"
  else if (d.category.getD "random").length > 50 then
    .error "Category must be a string with max 50 characters"
  else .ok { text := d.text.getD "", category := d.category.getD "random",
             importance := d.importance.getD 5 }

/-- A row of the ORM `thoughts` table.  Both timestamp columns are
`nullable=False` with `default=func.current_timestamp()`, so an INSERT
fills both; `Option` is kept so the claimed "null until first mutation"
is expressible. -/
structure OrmRow where
  id : Nat
  text : String
  category : String
  importance : Int
  created_at : Option String
  updated_at : Option String
deriving DecidableEq, Repr

/-- The ORM table plus its id sequence. -/
structure OrmStore where
  rows : List OrmRow
  next_id : Nat
deriving DecidableEq, Repr

/-- The row an ORM flush produces for a fresh `Thought`: the column
defaults stamp `created_at` and `updated_at` with the current time. -/
def ormInsertRow (nid : Nat) (n : OrmNew) (now : String) : OrmRow :=
  { id := nid, text := n.text, category := n.category,
    importance := n.importance, created_at := some now, updated_at := some now }

/-- `ThoughtRepository.create` of the ORM backend. -/
def ormCreate (st : OrmStore) (d : OrmCand) (now : String) :
    OrmStore × Except DbErr OrmRow :=
  match orm_from_dict d with
  | .error e => (st, .error (.validationError e))
  | .ok n =>
      let r := ormInsertRow st.next_id n now
      ({ rows := st.rows ++ [r], next_id := st.next_id + 1 }, .ok r)

/-- The error (if any) `Thought.from_dict` reports for one candidate. -/
def ormFromDictErr (c : OrmCand) : Option String :=
  match orm_from_dict c with
  | .error e => some e
  | .ok _ => none

/-- The validation loop of the ORM `create_bulk`: index and message of the
first candidate `Thought.from_dict` rejects. -/
def firstInvalidOrm (i : Nat) (l : List OrmCand) : Option (Nat × String) :=
  firstSomeIdx ormFromDictErr i l

/-- Rows created by `session.add_all` + flush for an all-valid list. -/
def ormRowsFrom (nid : Nat) (now : String) : List OrmCand → List OrmRow
  | [] => []
  | c :: rest =>
      match orm_from_dict c with
      | .ok n => ormInsertRow nid n now :: ormRowsFrom (nid + 1) now rest
      | .error _ => []

/-- `ThoughtRepository.create_bulk` of the ORM backend: an empty list
returns `[]`, there is no length cap, validation names the first
offending 1-based index, then one transaction adds every row. -/
def ormCreateBulk (st : OrmStore) (l : List OrmCand) (now : String) :
    OrmStore × Except DbErr (List OrmRow) :=
  if l.isEmpty then (st, .ok [])
  else
    match firstInvalidOrm 0 l with
    | some (i, e) =>
        (st, .error (.validationError
          ("Invalid data for thought " ++ toString (i + 1) ++ ": " ++ e)))
    | none =>
        let rows := ormRowsFrom st.next_id now l
        ({ rows := st.rows ++ rows, next_id := st.next_id + l.length }, .ok rows)

/-- The class attributes of the ORM `Thought` model that are columns; any
other name makes `getattr(Thought, sort_field)` (or the subsequent
`order_by`) raise, which `get_all` converts to `DatabaseError`. -/
def ormAttrs : List String :=
  ["id", "text", "category", "importance", "created_at", "updated_at"]

/-- `Thought.validate_sort_field` (ORM `models.py`): silent fallback to
`created_at` for unknown fields.  (`get_all` does NOT call it; the call
sits in a commented-out TODO.) -/
def validate_sort_field (field : String) : String :=
  if ormAttrs.contains field then field else "created_at"

/-- Ascending comparison of two ORM rows on a column name. -/
def ormRowLe (field : String) (a b : OrmRow) : Bool :=
  if field == "id" then decide (a.id ≤ b.id)
  else if field == "text" then pyStrLe a.text b.text
  else if field == "category" then pyStrLe a.category b.category
  else if field == "importance" then decide (a.importance ≤ b.importance)
  else if field == "created_at" then pyStrLe (a.created_at.getD "") (b.created_at.getD "")
  else pyStrLe (a.updated_at.getD "") (b.updated_at.getD "")

/-- `ThoughtRepository.get_all` of the ORM backend: no sort-field
validation (the validated helper is commented out); an unknown field
raises inside the `try` and surfaces as `DatabaseError`. -/
def ormGetAll (st : OrmStore) (sort_field sort_order : String)
    (limit offset : Nat) : Except DbErr (List OrmRow) :=
  if !(ormAttrs.contains sort_field) then
    .error (.databaseError
      ("Failed to retrieve thoughts: type object Thought has no attribute " ++ sort_field))
  else
    let le := ormRowLe sort_field
    let sorted :=
      if pyUpper sort_order == "DESC" then pySortBy (fun a b => le b a) st.rows
      else pySortBy le st.rows
    .ok ((sorted.drop offset).take limit)

/-- One client-visible operation against the week-2 in-memory backend. -/
inductive Op where
  | createOp (data : Option Candidate) (now : String)
  | putOp (id : Nat) (data : Option Candidate) (now : String)
  | patchOp (id : Nat) (data : Option Candidate) (now : String)
  | deleteOp (id : Nat)
  | bulkDeleteOp (tagF : Option String)
  | clearAllOp
deriving DecidableEq, Repr

/-- The observable outcome of one operation. -/
inductive OpOut where
  | created (t : Thought)
  | updated (t : Thought)
  | deleted
  | bulkDeleted (n : Nat)
  | cleared (n : Nat)
  | failed (code : Nat) (msg : String)
deriving DecidableEq, Repr

/-- Dispatch one operation to the corresponding week-2 handler. -/
def applyOp (s : ServerState) : Op → ServerState × OpOut
  | .createOp d now =>
      match create_thought s d now with
      | (s1, .ok t) => (s1, .created t)
      | (s1, .error (c, m)) => (s1, .failed c m)
  | .putOp id d now =>
      match put_thought s id d now with
      | (s1, .ok t) => (s1, .updated t)
      | (s1, .error (c, m)) => (s1, .failed c m)
  | .patchOp id d now =>
      match patch_thought s id d now with
      | (s1, .ok t) => (s1, .updated t)
      | (s1, .error (c, m)) => (s1, .failed c m)
  | .deleteOp id =>
      match delete_thought s id with
      | (s1, .ok _) => (s1, .deleted)
      | (s1, .error (c, m)) => (s1, .failed c m)
  | .bulkDeleteOp tf =>
      match bulk_delete_thoughts s tf with
      | (s1, .ok n) => (s1, .bulkDeleted n)
      | (s1, .error (c, m)) => (s1, .failed c m)
  | .clearAllOp =>
      match clear_all_thoughts s with
      | (s1, .ok n) => (s1, .cleared n)
      | (s1, .error (c, m)) => (s1, .failed c m)

/-- Run a sequence of operations, collecting the outcome trace. -/
def runOps (s : ServerState) : List Op → ServerState × List OpOut
  | [] => (s, [])
  | op :: rest =>
      let p := applyOp s op
      let q := runOps p.1 rest
      (q.1, p.2 :: q.2)

/-- The ids handed out by the successful creates of a trace. -/
def createdIds (outs : List OpOut) : List Nat :=
  outs.filterMap (fun o => match o with | .created t => some t.id | _ => none)

/-- Spec-side definition (for comparison with the code): the specification
describes the `author` query parameter as a case-insensitive substring
match on `record.author`. -/
def spec_author_matches (needle hay : String) : Bool :=
  let n := needle.toList.map Char.toLower
  let h := hay.toList.map Char.toLower
  (List.range (h.length + 1)).any (fun i => (h.drop i).take n.length == n)

/-- Well-formedness of a week-2 server state: stored ids are pairwise
distinct and below the `next_id` counter.  It holds for the seeded start
state and is preserved by every handler. -/
def StateInv (s : ServerState) : Prop :=
  (s.thoughts_storage.map Thought.id).Nodup ∧
  ∀ t ∈ s.thoughts_storage, t.id < s.next_id

/-- A well-formed create body used by concrete instantiations. -/
def vBody : Option Candidate :=
  some { text := some (.bstr "valid thought"), tags := some (.blist [.tstr "tag-one"]),
         author := none, hasOtherKeys := false }

/-- A valid ORM candidate. -/
def ormValidCand : OrmCand := { text := some "hello", category := none, importance := none }

/-- An ORM candidate `Thought.from_dict` rejects (missing text). -/
def ormBadCand : OrmCand := { text := none, category := none, importance := none }

/-- A valid raw-SQL candidate. -/
def rawValidCand : RawCand := { text := some "hello", category := none, importance := none }

/-- A raw-SQL candidate `_validate_thought` rejects (missing text). -/
def rawBadCand : RawCand := { text := none, category := none, importance := none }

/-- A create body whose single tag has trimmed length 20 but raw length
21 (20 letters plus one trailing space). -/
def paddedTagBody : Candidate :=
  { text := some (.bstr "hello world"),
    tags := some (.blist [.tstr "aaaaaaaaaaaaaaaaaaaa "]),
    author := none, hasOtherKeys := false }

/-- A create body whose single tag is well within both length bounds. -/
def goodTagBody : Candidate :=
  { text := some (.bstr "valid thought"),
    tags := some (.blist [.tstr "tag-one"]),
    author := none, hasOtherKeys := false }

/-- Decidable equality for `Except`, so handler results evaluate on
concrete inputs. -/
instance instDecEqExcept [DecidableEq e] [DecidableEq a] : DecidableEq (Except e a) := fun x y =>
  match x, y with
  | .ok u, .ok v =>
      if h : u = v then .isTrue (by rw [h]) else .isFalse (fun hc => h (Except.ok.inj hc))
  | .error u, .error v =>
      if h : u = v then .isTrue (by rw [h]) else .isFalse (fun hc => h (Except.error.inj hc))
  | .ok _, .error _ => .isFalse (fun hc => Except.noConfusion hc)
  | .error _, .ok _ => .isFalse (fun hc => Except.noConfusion hc)

/-! Helper lemmas about the sorting and update primitives. -/

theorem length_insertLe (le : α → α → Bool) (x : α) (l : List α) :
    (insertLe le x l).length = l.length + 1 := by
  induction l with
  | nil => rfl
  | cons y ys ih =>
      unfold insertLe
      split
      · simp
      · simpa using ih

theorem length_pySortBy (le : α → α → Bool) (l : List α) :
    (pySortBy le l).length = l.length := by
  induction l with
  | nil => rfl
  | cons x xs ih => simpa [pySortBy, length_insertLe] using ih

theorem mem_insertLe (le : α → α → Bool) (x a : α) (l : List α) :
    a ∈ insertLe le x l ↔ a = x ∨ a ∈ l := by
  induction l with
  | nil => simp [insertLe]
  | cons y ys ih =>
      unfold insertLe
      split
      · simp [or_comm, or_assoc]
      · simp only [List.mem_cons, ih]
        tauto

theorem mem_pySortBy (le : α → α → Bool) (a : α) (l : List α) :
    a ∈ pySortBy le l ↔ a ∈ l := by
  induction l with
  | nil => simp [pySortBy]
  | cons x xs ih => simp [pySortBy, mem_insertLe, ih]

theorem map_id_updateFirst (l : List Thought) (id : Nat) (t2 : Thought)
    (h : t2.id = id) :
    (updateFirst l id (fun _ => t2)).map Thought.id = l.map Thought.id := by
  induction l with
  | nil => rfl
  | cons x xs ih =>
      unfold updateFirst
      split
      · rename_i hx
        simp only [List.map_cons]
        rw [h, eq_of_beq hx]
      · simpa using ih

theorem mem_updateFirst (l : List Thought) (id : Nat) (f : Thought → Thought)
    (a : Thought) (h : a ∈ updateFirst l id f) :
    a ∈ l ∨ ∃ x ∈ l, a = f x := by
  induction l with
  | nil => simp [updateFirst] at h
  | cons x xs ih =>
      unfold updateFirst at h
      split at h
      · rcases List.mem_cons.mp h with h1 | h1
        · exact Or.inr ⟨x, List.mem_cons_self _ _, h1⟩
        · exact Or.inl (List.mem_cons_of_mem _ h1)
      · rcases List.mem_cons.mp h with h1 | h1
        · exact Or.inl (h1 ▸ List.mem_cons_self _ _)
        · rcases ih h1 with h2 | ⟨y, hy, h2⟩
          · exact Or.inl (List.mem_cons_of_mem _ h2)
          · exact Or.inr ⟨y, List.mem_cons_of_mem _ hy, h2⟩

theorem find_thought_id (l : List Thought) (i : Nat) (t : Thought)
    (h : find_thought_by_id l i = some t) : t.id = i ∧ t ∈ l := by
  unfold find_thought_by_id at h
  have hp := List.find?_some h
  exact ⟨eq_of_beq hp, List.mem_of_find?_eq_some h⟩

theorem find_erase_none (l : List Thought) (i : Nat)
    (h : (l.map Thought.id).Nodup) :
    find_thought_by_id (l.eraseP (fun t => t.id == i)) i = none := by
  induction l with
  | nil => rfl
  | cons x xs ih =>
      rw [List.map_cons, List.nodup_cons] at h
      by_cases hx : x.id = i
      · rw [List.eraseP_cons_of_pos]
        · unfold find_thought_by_id
          rw [List.find?_eq_none]
          intro y hy
          have : y.id ≠ i := by
            intro hyi
            apply h.1
            rw [hx, ← hyi]
            exact List.mem_map_of_mem Thought.id hy
          simpa using this
        · simpa using hx
      · rw [List.eraseP_cons_of_neg]
        · unfold find_thought_by_id
          rw [List.find?_cons_of_neg]
          · exact ih h.2
          · simpa using hx
        · simpa using hx

/-! Effect lemmas for the week-2 handlers. -/

theorem create_thought_next_id (s : ServerState) (d : Option Candidate) (now : String) :
    s.next_id ≤ (create_thought s d now).1.next_id := by
  unfold create_thought
  repeat' split
  all_goals simp

theorem put_thought_next_id (s : ServerState) (id : Nat) (d : Option Candidate) (now : String) :
    (put_thought s id d now).1.next_id = s.next_id := by
  unfold put_thought
  repeat' split
  all_goals rfl

theorem patch_thought_next_id (s : ServerState) (id : Nat) (d : Option Candidate) (now : String) :
    (patch_thought s id d now).1.next_id = s.next_id := by
  unfold patch_thought
  repeat' split
  all_goals rfl

theorem delete_thought_next_id (s : ServerState) (id : Nat) :
    (delete_thought s id).1.next_id = s.next_id := by
  unfold delete_thought
  repeat' split
  all_goals rfl

theorem bulk_delete_next_id (s : ServerState) (tf : Option String) :
    (bulk_delete_thoughts s tf).1.next_id = s.next_id := by
  unfold bulk_delete_thoughts
  repeat' split
  all_goals rfl

theorem create_thought_ok (s s1 : ServerState) (d : Option Candidate) (now : String)
    (t : Thought) (h : create_thought s d now = (s1, .ok t)) :
    s1 = { thoughts_storage := s.thoughts_storage ++ [t], next_id := s.next_id + 1 } ∧
    t.id = s.next_id ∧ t.updated_at = none := by
  unfold create_thought at h
  repeat' split at h
  all_goals first
    | (simp at h; done)
    | (simp only [Prod.mk.injEq, Except.ok.injEq] at h
       obtain ⟨h1, h2⟩ := h
       subst h1
       subst h2
       exact ⟨rfl, rfl, rfl⟩)

theorem put_thought_ok (s s1 : ServerState) (id : Nat) (d : Option Candidate)
    (now : String) (t2 : Thought) (h : put_thought s id d now = (s1, .ok t2)) :
    s1 = { s with thoughts_storage := updateFirst s.thoughts_storage id (fun _ => t2) } ∧
    t2.updated_at = some now := by
  unfold put_thought at h
  repeat' split at h
  all_goals first
    | (simp at h; done)
    | (simp only [Prod.mk.injEq, Except.ok.injEq] at h
       obtain ⟨h1, h2⟩ := h
       subst h1
       subst h2
       exact ⟨rfl, rfl⟩)

theorem patchApply_spec (c : Candidate) (now : String) (t t2 : Thought)
    (h : patchApply c now t = some t2) :
    t2.id = t.id ∧ t2.updated_at = some now ∧ t2.author = t.author ∧
    t2.timestamp = t.timestamp := by
  unfold patchApply at h
  repeat' split at h
  all_goals simp_all
  all_goals simp [← h]

theorem patch_thought_ok (s s1 : ServerState) (id : Nat) (d : Option Candidate)
    (now : String) (t2 : Thought) (h : patch_thought s id d now = (s1, .ok t2)) :
    s1 = { s with thoughts_storage := updateFirst s.thoughts_storage id (fun _ => t2) } ∧
    t2.updated_at = some now := by
  unfold patch_thought at h
  repeat' split at h
  all_goals first
    | (simp at h; done)
    | (simp only [Prod.mk.injEq, Except.ok.injEq] at h
       obtain ⟨h1, h2⟩ := h
       subst h1
       subst h2
       exact ⟨rfl, (patchApply_spec _ _ _ _ (by assumption)).2.1⟩)

theorem delete_thought_ok (s s1 : ServerState) (id : Nat)
    (h : delete_thought s id = (s1, .ok ())) :
    s1 = { s with thoughts_storage := s.thoughts_storage.eraseP (fun x => x.id == id) } ∧
    ∃ t, find_thought_by_id s.thoughts_storage id = some t := by
  unfold delete_thought at h
  split at h
  · simp at h
  · simp only [Prod.mk.injEq] at h
    exact ⟨h.1.symm, _, by assumption⟩

theorem bulk_delete_ok (s s1 : ServerState) (tf : Option String) (n : Nat)
    (h : bulk_delete_thoughts s tf = (s1, .ok n)) :
    s1 = { s with thoughts_storage :=
      s.thoughts_storage.filter (fun t => !(t.tags.contains (tf.getD ""))) } := by
  unfold bulk_delete_thoughts at h
  split at h
  · simp at h
  · simp only [Prod.mk.injEq] at h
    exact h.1.symm

theorem applyOp_next_id (s : ServerState) (op : Op) (h : op ≠ Op.clearAllOp) :
    s.next_id ≤ (applyOp s op).1.next_id := by
  cases op with
  | createOp d now =>
      have hle := create_thought_next_id s d now
      rcases hr : create_thought s d now with ⟨s2, r⟩
      rw [hr] at hle
      cases r with
      | ok t => simpa [applyOp, hr] using hle
      | error e => obtain ⟨c, m⟩ := e; simpa [applyOp, hr] using hle
  | putOp id d now =>
      have hle := put_thought_next_id s id d now
      rcases hr : put_thought s id d now with ⟨s2, r⟩
      rw [hr] at hle
      cases r with
      | ok t => simp at hle; simp [applyOp, hr, hle]
      | error e => obtain ⟨c, m⟩ := e; simp at hle; simp [applyOp, hr, hle]
  | patchOp id d now =>
      have hle := patch_thought_next_id s id d now
      rcases hr : patch_thought s id d now with ⟨s2, r⟩
      rw [hr] at hle
      cases r with
      | ok t => simp at hle; simp [applyOp, hr, hle]
      | error e => obtain ⟨c, m⟩ := e; simp at hle; simp [applyOp, hr, hle]
  | deleteOp id =>
      have hle := delete_thought_next_id s id
      rcases hr : delete_thought s id with ⟨s2, r⟩
      rw [hr] at hle
      cases r with
      | ok t => simp at hle; simp [applyOp, hr, hle]
      | error e => obtain ⟨c, m⟩ := e; simp at hle; simp [applyOp, hr, hle]
  | bulkDeleteOp tf =>
      have hle := bulk_delete_next_id s tf
      rcases hr : bulk_delete_thoughts s tf with ⟨s2, r⟩
      rw [hr] at hle
      cases r with
      | ok n => simp at hle; simp [applyOp, hr, hle]
      | error e => obtain ⟨c, m⟩ := e; simp at hle; simp [applyOp, hr, hle]
  | clearAllOp => exact absurd rfl h

theorem applyOp_created (s s1 : ServerState) (op : Op) (t : Thought)
    (h : applyOp s op = (s1, OpOut.created t)) : t.id = s.next_id := by
  cases op with
  | createOp d now =>
      rcases hr : create_thought s d now with ⟨s2, r⟩
      cases r with
      | ok t0 =>
          simp only [applyOp, hr, Prod.mk.injEq, OpOut.created.injEq] at h
          exact h.2 ▸ (create_thought_ok s s2 d now t0 hr).2.1
      | error e => obtain ⟨c, m⟩ := e; simp [applyOp, hr] at h
  | putOp id d now =>
      rcases hr : put_thought s id d now with ⟨s2, r⟩
      cases r with
      | ok t0 => simp [applyOp, hr] at h
      | error e => obtain ⟨c, m⟩ := e; simp [applyOp, hr] at h
  | patchOp id d now =>
      rcases hr : patch_thought s id d now with ⟨s2, r⟩
      cases r with
      | ok t0 => simp [applyOp, hr] at h
      | error e => obtain ⟨c, m⟩ := e; simp [applyOp, hr] at h
  | deleteOp id =>
      rcases hr : delete_thought s id with ⟨s2, r⟩
      cases r with
      | ok u => simp [applyOp, hr] at h
      | error e => obtain ⟨c, m⟩ := e; simp [applyOp, hr] at h
  | bulkDeleteOp tf =>
      rcases hr : bulk_delete_thoughts s tf with ⟨s2, r⟩
      cases r with
      | ok n => simp [applyOp, hr] at h
      | error e => obtain ⟨c, m⟩ := e; simp [applyOp, hr] at h
  | clearAllOp => simp [applyOp, clear_all_thoughts] at h

theorem createdIds_cons (o : OpOut) (os : List OpOut) (j : Nat)
    (h : j ∈ createdIds (o :: os)) :
    (∃ t, o = OpOut.created t ∧ j = t.id) ∨ j ∈ createdIds os := by
  cases o <;> simp [createdIds, List.filterMap_cons] at h ⊢ <;> tauto

theorem createdIds_ge (s : ServerState) (ops : List Op) (h : Op.clearAllOp ∉ ops) :
    ∀ j ∈ createdIds (runOps s ops).2, s.next_id ≤ j := by
  induction ops generalizing s with
  | nil => intro j hj; simp [runOps, createdIds] at hj
  | cons op rest ih =>
      intro j hj
      have hop : op ≠ Op.clearAllOp := fun he => h (he ▸ List.mem_cons_self _ _)
      have hrest : Op.clearAllOp ∉ rest := fun hm => h (List.mem_cons_of_mem _ hm)
      rw [runOps] at hj
      simp only at hj
      rcases createdIds_cons _ _ _ hj with ⟨t, hout, hjid⟩ | hmem
      · have hfull : applyOp s op = ((applyOp s op).1, OpOut.created t) := by
          rw [← hout]
        exact le_of_eq (hjid.trans (applyOp_created s _ op t hfull)).symm
      · exact le_trans (applyOp_next_id s op hop) (ih (applyOp s op).1 hrest j hmem)

/-- C7 (amended): on a well-formed store, after `delete(id)` succeeds,
`get_by_id(id)` fails (find returns nothing), and across any subsequent
operation sequence that does not contain `clear_all_thoughts`, no create
hands out the freed id again.  (The original claim also covered sequences
with the clear-all operation; `clear_all_thoughts` resets `next_id` to 1,
so freed ids do reappear — see the counterexample.) -/
theorem C7_delete_no_reuse (s s1 : ServerState) (i : Nat) (ops : List Op)
    (hinv : StateInv s)
    (hdel : applyOp s (Op.deleteOp i) = (s1, OpOut.deleted))
    (hnc : Op.clearAllOp ∉ ops) :
    find_thought_by_id s1.thoughts_storage i = none ∧
    ∀ j ∈ createdIds (runOps s1 ops).2, j ≠ i := by
  rcases hr : delete_thought s i with ⟨s2, r⟩
  cases r with
  | error e => obtain ⟨c, m⟩ := e; simp [applyOp, hr] at hdel
  | ok u =>
      cases u
      simp only [applyOp, hr] at hdel
      have h1 : s2 = s1 := congrArg Prod.fst hdel
      subst h1
      obtain ⟨hs1, t, hfind⟩ := delete_thought_ok s s2 i hr
      obtain ⟨hti, htmem⟩ := find_thought_id _ _ _ hfind
      have hlt : i < s.next_id := hti ▸ hinv.2 t htmem
      constructor
      · rw [hs1]
        exact find_erase_none s.thoughts_storage i hinv.1
      · intro j hj hji
        have hge := createdIds_ge s2 ops hnc j hj
        rw [hs1] at hge
        simp only at hge
        omega

/-- C7 counterexample: starting from an empty store, create (id 1), delete
id 1, clear all, create again — the second create returns the previously
deleted id 1, so an id freed by deletion reappears in a later create
result once `clear_all_thoughts` has run. -/
theorem C7_counterexample :
    (runOps { thoughts_storage := [], next_id := 1 }
      [Op.createOp vBody "T1", Op.deleteOp 1, Op.clearAllOp, Op.createOp vBody "T2"]).2 =
      [OpOut.created { id := 1, text := "valid thought", tags := ["tag-one"],
                       author := "Anonymous", timestamp := "T1", updated_at := none },
       OpOut.deleted,
       OpOut.cleared 0,
       OpOut.created { id := 1, text := "valid thought", tags := ["tag-one"],
                       author := "Anonymous", timestamp := "T2", updated_at := none }] := by
  decide

/-- The record created by `vBody` at time "T1" with id 1. -/
def vThought1 : Thought :=
  { id := 1, text := "valid thought", tags := ["tag-one"],
    author := "Anonymous", timestamp := "T1", updated_at := none }

/-- The one-record start state of the C7 witness. -/
def oneThoughtState : ServerState :=
  { thoughts_storage := [vThought1], next_id := 2 }

/-- The state after deleting id 1 from `oneThoughtState`. -/
def oneThoughtStateDel : ServerState := { thoughts_storage := [], next_id := 2 }

/-- C7 witness: the amended theorem applied to a one-record store, a
successful delete of id 1 and a subsequent create. -/
theorem C7_witness :
    StateInv oneThoughtState ∧
    applyOp oneThoughtState (Op.deleteOp 1) = (oneThoughtStateDel, OpOut.deleted) ∧
    Op.clearAllOp ∉ [Op.createOp vBody "T2"] ∧
    (find_thought_by_id oneThoughtStateDel.thoughts_storage 1 = none ∧
     ∀ j ∈ createdIds (runOps oneThoughtStateDel [Op.createOp vBody "T2"]).2, j ≠ 1) :=
  ⟨⟨by decide, by decide⟩, by decide, by decide,
   C7_delete_no_reuse oneThoughtState oneThoughtStateDel 1 [Op.createOp vBody "T2"]
     ⟨by decide, by decide⟩ (by decide) (by decide)⟩

theorem create_thought_err (s s1 : ServerState) (d : Option Candidate) (now : String)
    (e : Nat × String) (h : create_thought s d now = (s1, .error e)) : s1 = s := by
  unfold create_thought at h
  repeat' split at h
  all_goals first
    | (simp at h; done)
    | exact (congrArg Prod.fst h).symm

theorem put_thought_err (s s1 : ServerState) (id : Nat) (d : Option Candidate) (now : String)
    (e : Nat × String) (h : put_thought s id d now = (s1, .error e)) : s1 = s := by
  unfold put_thought at h
  repeat' split at h
  all_goals first
    | (simp at h; done)
    | exact (congrArg Prod.fst h).symm

theorem patch_thought_err (s s1 : ServerState) (id : Nat) (d : Option Candidate) (now : String)
    (e : Nat × String) (h : patch_thought s id d now = (s1, .error e)) : s1 = s := by
  unfold patch_thought at h
  repeat' split at h
  all_goals first
    | (simp at h; done)
    | exact (congrArg Prod.fst h).symm

theorem delete_thought_err (s s1 : ServerState) (id : Nat)
    (e : Nat × String) (h : delete_thought s id = (s1, .error e)) : s1 = s := by
  unfold delete_thought at h
  split at h
  · exact (congrArg Prod.fst h).symm
  · simp at h

theorem bulk_delete_err (s s1 : ServerState) (tf : Option String)
    (e : Nat × String) (h : bulk_delete_thoughts s tf = (s1, .error e)) : s1 = s := by
  unfold bulk_delete_thoughts at h
  split at h
  · exact (congrArg Prod.fst h).symm
  · simp at h

/-- C2 (amended): in the week-2 in-memory backend, `updated_at` is null
immediately after create, every successful PUT or PATCH stamps it with the
current time, and a record that still has `updated_at = null` after any
operation was either already stored unchanged before it or is that
operation's own freshly created record — so `updated_at = null` does mean
"never mutated since creation" there.  In the ORM backend, however, the
column defaults stamp `updated_at` already at creation time (it equals
`created_at` and is never null), so the claim's "null immediately after
create, in every backend" fails — see the counterexample. -/
theorem C2_updated_at_null_semantics :
    (∀ s s1 d now t, create_thought s d now = (s1, .ok t) → t.updated_at = none) ∧
    (∀ s s1 id d now t2, put_thought s id d now = (s1, .ok t2) → t2.updated_at = some now) ∧
    (∀ s s1 id d now t2, patch_thought s id d now = (s1, .ok t2) → t2.updated_at = some now) ∧
    (∀ s op r, r ∈ (applyOp s op).1.thoughts_storage → r.updated_at = none →
       r ∈ s.thoughts_storage ∨ (applyOp s op).2 = OpOut.created r) ∧
    (∀ st st1 d now r, ormCreate st d now = (st1, .ok r) → r.updated_at = some now) := by
  refine ⟨?_, ?_, ?_, ?_, ?_⟩
  · intro s s1 d now t h
    exact (create_thought_ok s s1 d now t h).2.2
  · intro s s1 id d now t2 h
    exact (put_thought_ok s s1 id d now t2 h).2
  · intro s s1 id d now t2 h
    exact (patch_thought_ok s s1 id d now t2 h).2
  · intro s op r hmem hnull
    cases op with
    | createOp d now =>
        rcases hr : create_thought s d now with ⟨s2, res⟩
        cases res with
        | ok t =>
            obtain ⟨hs2, -, -⟩ := create_thought_ok s s2 d now t hr
            rw [applyOp] at hmem ⊢
            rw [hr] at hmem ⊢
            simp only [hs2] at hmem
            rcases List.mem_append.mp hmem with h1 | h1
            · exact Or.inl h1
            · simp only [List.mem_singleton] at h1
              exact Or.inr (by simp [h1])
        | error e =>
            obtain ⟨c, m⟩ := e
            have hs2 := create_thought_err s s2 d now _ hr
            rw [applyOp] at hmem
            rw [hr] at hmem
            simp only [hs2] at hmem
            exact Or.inl hmem
    | putOp id d now =>
        rcases hr : put_thought s id d now with ⟨s2, res⟩
        cases res with
        | ok t2 =>
            obtain ⟨hs2, hup⟩ := put_thought_ok s s2 id d now t2 hr
            rw [applyOp] at hmem
            rw [hr] at hmem
            simp only [hs2] at hmem
            rcases mem_updateFirst _ _ _ _ hmem with h1 | ⟨x, -, h1⟩
            · exact Or.inl h1
            · rw [h1] at hnull
              rw [hup] at hnull
              exact absurd hnull (by simp)
        | error e =>
            obtain ⟨c, m⟩ := e
            have hs2 := put_thought_err s s2 id d now _ hr
            rw [applyOp] at hmem
            rw [hr] at hmem
            simp only [hs2] at hmem
            exact Or.inl hmem
    | patchOp id d now =>
        rcases hr : patch_thought s id d now with ⟨s2, res⟩
        cases res with
        | ok t2 =>
            obtain ⟨hs2, hup⟩ := patch_thought_ok s s2 id d now t2 hr
            rw [applyOp] at hmem
            rw [hr] at hmem
            simp only [hs2] at hmem
            rcases mem_updateFirst _ _ _ _ hmem with h1 | ⟨x, -, h1⟩
            · exact Or.inl h1
            · rw [h1] at hnull
              rw [hup] at hnull
              exact absurd hnull (by simp)
        | error e =>
            obtain ⟨c, m⟩ := e
            have hs2 := patch_thought_err s s2 id d now _ hr
            rw [applyOp] at hmem
            rw [hr] at hmem
            simp only [hs2] at hmem
            exact Or.inl hmem
    | deleteOp id =>
        rcases hr : delete_thought s id with ⟨s2, res⟩
        cases res with
        | ok u =>
            cases u
            obtain ⟨hs2, -⟩ := delete_thought_ok s s2 id hr
            rw [applyOp] at hmem
            rw [hr] at hmem
            simp only [hs2] at hmem
            exact Or.inl ((List.eraseP_sublist _).subset hmem)
        | error e =>
            obtain ⟨c, m⟩ := e
            have hs2 := delete_thought_err s s2 id _ hr
            rw [applyOp] at hmem
            rw [hr] at hmem
            simp only [hs2] at hmem
            exact Or.inl hmem
    | bulkDeleteOp tf =>
        rcases hr : bulk_delete_thoughts s tf with ⟨s2, res⟩
        cases res with
        | ok n =>
            have hs2 := bulk_delete_ok s s2 tf n hr
            rw [applyOp] at hmem
            rw [hr] at hmem
            simp only [hs2] at hmem
            exact Or.inl (List.mem_of_mem_filter hmem)
        | error e =>
            obtain ⟨c, m⟩ := e
            have hs2 := bulk_delete_err s s2 tf _ hr
            rw [applyOp] at hmem
            rw [hr] at hmem
            simp only [hs2] at hmem
            exact Or.inl hmem
    | clearAllOp =>
        rw [applyOp, clear_all_thoughts] at hmem
        simp at hmem
  · intro st st1 d now r h
    unfold ormCreate at h
    split at h
    · simp at h
    · simp only [Prod.mk.injEq, Except.ok.injEq] at h
      obtain ⟨h1, h2⟩ := h
      rw [← h2]
      rfl

/-- C2 counterexample: a successful create in the ORM backend returns a
record whose `updated_at` is already set (to the creation time), not null
— refuting "updated_at is null immediately after create" for that
backend. -/
theorem C2_counterexample :
    (ormCreate { rows := [], next_id := 1 }
        { text := some "hi there", category := none, importance := none } "T0").2 =
      .ok { id := 1, text := "hi there", category := "random", importance := 5,
            created_at := some "T0", updated_at := some "T0" } ∧
    (some "T0" : Option String) ≠ none :=
  ⟨by decide, by decide⟩

/-- C2 witness: the amended conjuncts applied at concrete inputs
(create, PUT, PATCH, a frame step, and an ORM create). -/
theorem C2_witness :
    vThought1.updated_at = none ∧
    ({ vThought1 with updated_at := some "T9" } : Thought).updated_at = some "T9" ∧
    ({ vThought1 with updated_at := some "T8" } : Thought).updated_at = some "T8" ∧
    (vThought1 ∈ oneThoughtState.thoughts_storage ∨
      (applyOp oneThoughtState (Op.deleteOp 5)).2 = OpOut.created vThought1) ∧
    ({ id := 1, text := "hi there", category := "random", importance := 5,
       created_at := some "T0", updated_at := some "T0" } : OrmRow).updated_at = some "T0" := by
  refine ⟨?_, ?_, ?_, ?_, ?_⟩
  · exact C2_updated_at_null_semantics.1 { thoughts_storage := [], next_id := 1 }
      { thoughts_storage := [vThought1], next_id := 2 } vBody "T1" vThought1 (by decide)
  · exact C2_updated_at_null_semantics.2.1 oneThoughtState
      { thoughts_storage := [{ vThought1 with updated_at := some "T9" }], next_id := 2 }
      1 vBody "T9" { vThought1 with updated_at := some "T9" } (by decide)
  · exact C2_updated_at_null_semantics.2.2.1 oneThoughtState
      { thoughts_storage := [{ vThought1 with updated_at := some "T8" }], next_id := 2 }
      1 (some { text := none, tags := none, author := some "Zed", hasOtherKeys := false })
      "T8" { vThought1 with updated_at := some "T8" } (by decide)
  · exact C2_updated_at_null_semantics.2.2.2.1 oneThoughtState (Op.deleteOp 5) vThought1
      (by decide) (by decide)
  · exact C2_updated_at_null_semantics.2.2.2.2 { rows := [], next_id := 1 }
      { rows := [{ id := 1, text := "hi there", category := "random", importance := 5,
                   created_at := some "T0", updated_at := some "T0" }], next_id := 2 }
      { text := some "hi there", category := none, importance := none } "T0"
      { id := 1, text := "hi there", category := "random", importance := 5,
        created_at := some "T0", updated_at := some "T0" } (by decide)

theorem orm_from_dict_text (d : OrmCand) (n : OrmNew)
    (h : orm_from_dict d = .ok n) : n.text = d.text.getD "" := by
  unfold orm_from_dict at h
  repeat' split at h
  all_goals first
    | (simp at h; done)
    | (cases Except.ok.inj h; rfl)

/-- C3 (amended): the week-2 in-memory handlers store trimmed data — a
successful create or PUT stores `text.strip()` and per-tag stripped tags —
but the week-3 backends do not trim at all: the raw-SQL `create` inserts
`thought_data['text']` exactly as submitted, and the ORM
`Thought.from_dict` keeps the submitted text unchanged (see the
counterexample). -/
theorem C3_trimmed_storage :
    (∀ s s1 c now t txt l tags,
       create_thought s (some c) now = (s1, .ok t) →
       c.text = some (.bstr txt) → c.tags = some (.blist l) → strTags l = some tags →
       t.text = pyStrip txt ∧ t.tags = tags.map pyStrip) ∧
    (∀ s s1 id c now t2 txt l tags,
       put_thought s id (some c) now = (s1, .ok t2) →
       c.text = some (.bstr txt) → c.tags = some (.blist l) → strTags l = some tags →
       t2.text = pyStrip txt ∧ t2.tags = tags.map pyStrip) ∧
    (∀ st st1 d now r txt, rawCreate st d now = (st1, .ok r) → d.text = some txt →
       r.text = txt) ∧
    (∀ st st1 d now r txt, ormCreate st d now = (st1, .ok r) → d.text = some txt →
       r.text = txt) := by
  refine ⟨?_, ?_, ?_, ?_⟩
  · intro s s1 c now t txt l tags h htxt htags hst
    unfold create_thought at h
    repeat' split at h
    all_goals first
      | (simp at h; done)
      | (simp only [Prod.mk.injEq, Except.ok.injEq] at h
         obtain ⟨h1, h2⟩ := h
         subst h2
         simp_all)
  · intro s s1 id c now t2 txt l tags h htxt htags hst
    unfold put_thought at h
    repeat' split at h
    all_goals first
      | (simp at h; done)
      | (simp only [Prod.mk.injEq, Except.ok.injEq] at h
         obtain ⟨h1, h2⟩ := h
         subst h2
         simp_all)
  · intro st st1 d now r txt h hd
    unfold rawCreate at h
    cases hv : rawValidate d with
    | some e => rw [hv] at h; simp at h
    | none =>
        rw [hv] at h
        simp only [Prod.mk.injEq, Except.ok.injEq] at h
        obtain ⟨h1, h2⟩ := h
        subst h2
        simp [rawInsertRow, hd]
  · intro st st1 d now r txt h hd
    unfold ormCreate at h
    cases ho : orm_from_dict d with
    | error e => rw [ho] at h; simp at h
    | ok n =>
        rw [ho] at h
        simp only [Prod.mk.injEq, Except.ok.injEq] at h
        obtain ⟨h1, h2⟩ := h
        subst h2
        have := orm_from_dict_text d n ho
        simp [ormInsertRow, this, hd]

/-- C3 counterexample: the raw-SQL backend stores the submitted text with
its surrounding whitespace intact, and that raw form differs from the
trimmed one — refuting "text is never stored in raw (untrimmed) form in
every backend". -/
theorem C3_counterexample :
    (rawCreate { rows := [], next_id := 1 }
        { text := some "  hello  ", category := none, importance := none } "T0").2 =
      .ok { id := 1, text := "  hello  ", category := "random", importance := 5,
            created_at := "T0" } ∧
    pyStrip "  hello  " ≠ "  hello  " :=
  ⟨by decide, by decide⟩

/-- C3 witness: the amended conjuncts applied at concrete inputs. -/
theorem C3_witness :
    (vThought1.text = pyStrip "valid thought" ∧ vThought1.tags = ["tag-one"].map pyStrip) ∧
    (({ id := 1, text := "hello", category := "random", importance := 5,
        created_at := "T0" } : RawRow).text = "hello") ∧
    (({ id := 1, text := "hello", category := "random", importance := 5,
        created_at := some "T0", updated_at := some "T0" } : OrmRow).text = "hello") := by
  refine ⟨?_, ?_, ?_⟩
  · exact C3_trimmed_storage.1 { thoughts_storage := [], next_id := 1 }
      { thoughts_storage := [vThought1], next_id := 2 }
      { text := some (.bstr "valid thought"), tags := some (.blist [.tstr "tag-one"]),
        author := none, hasOtherKeys := false }
      "T1" vThought1 "valid thought" [.tstr "tag-one"] ["tag-one"]
      (by decide) (by decide) (by decide) (by decide)
  · exact C3_trimmed_storage.2.2.1 { rows := [], next_id := 1 }
      { rows := [{ id := 1, text := "hello", category := "random", importance := 5,
                   created_at := "T0" }], next_id := 2 }
      rawValidCand "T0"
      { id := 1, text := "hello", category := "random", importance := 5, created_at := "T0" }
      "hello" (by decide) (by decide)
  · exact C3_trimmed_storage.2.2.2 { rows := [], next_id := 1 }
      { rows := [{ id := 1, text := "hello", category := "random", importance := 5,
                   created_at := some "T0", updated_at := some "T0" }], next_id := 2 }
      ormValidCand "T0"
      { id := 1, text := "hello", category := "random", importance := 5,
        created_at := some "T0", updated_at := some "T0" }
      "hello" (by decide) (by decide)

/-- C10 (confirmed): a non-empty PATCH body containing neither `text` nor
`tags` (for example only an `author` or unknown key) passes partial
validation and succeeds, the stored record keeps every content field
(id, text, tags, author, timestamp), and `updated_at` alone is stamped
with the current time. -/
theorem C10_patch_stamps_updated_at (s : ServerState) (id : Nat) (c : Candidate)
    (now : String) (t : Thought)
    (hne : c.isEmptyDict = false) (htext : c.text = none) (htags : c.tags = none)
    (hfind : find_thought_by_id s.thoughts_storage id = some t) :
    patch_thought s id (some c) now =
      ({ s with thoughts_storage :=
          updateFirst s.thoughts_storage id (fun _ => { t with updated_at := some now }) },
       .ok { t with updated_at := some now }) := by
  have hval : validate_thought_data (some c) true = none := by
    simp [validate_thought_data, validateText, validateTags, hne, htext, htags]
  have happ : patchApply c now t = some { t with updated_at := some now } := by
    simp [patchApply, htext, htags]
  simp [patch_thought, hfind, hval, happ]

/-- A PATCH body carrying only an author key. -/
def authorOnlyBody : Candidate :=
  { text := none, tags := none, author := some "Zed", hasOtherKeys := false }

/-- C10 witness: the theorem applied to a body carrying only an author
key, against a one-record store. -/
theorem C10_witness :
    authorOnlyBody.isEmptyDict = false ∧
    find_thought_by_id oneThoughtState.thoughts_storage 1 = some vThought1 ∧
    patch_thought oneThoughtState 1 (some authorOnlyBody) "T9" =
      ({ oneThoughtState with thoughts_storage :=
          (updateFirst oneThoughtState.thoughts_storage 1
            (fun _ => { vThought1 with updated_at := some "T9" })) },
       .ok { vThought1 with updated_at := some "T9" }) :=
  ⟨by decide, by decide,
   C10_patch_stamps_updated_at oneThoughtState 1 authorOnlyBody
     "T9" vThought1 (by decide) rfl rfl (by decide)⟩

theorem length_sortThoughts (sb : String) (l : List Thought) :
    (sortThoughts sb l).length = l.length := by
  unfold sortThoughts
  repeat' split
  all_goals simp [length_pySortBy]

/-- C4 (corrected by amendment): for every successful list call the
reported `total` equals the length of the returned (post-limit) sequence —
the code computes `total` after the limit truncation — and whenever no
limit parameter is supplied the total equals the pre-limit count of
records matching the filters (tag, author, and min_tags). -/
theorem C4_total_post_limit (storage : List Thought)
    (tagF authorF limitF sortF minTagsF : Option String) (r : ListResult)
    (h : get_thoughts storage tagF authorF limitF sortF minTagsF = .ok r) :
    r.total = r.thoughts.length ∧
    (limitF = none →
      ∀ matched,
        minTagsStage (applyAuthorFilter authorF (applyTagFilter tagF storage)) minTagsF =
          .ok matched →
        r.total = matched.length) := by
  constructor
  · unfold get_thoughts at h
    repeat' split at h
    all_goals first
      | (simp at h; done)
      | (cases Except.ok.inj h; rfl)
  · intro hl matched hm
    subst hl
    unfold get_thoughts at h
    split at h
    · simp at h
    · rw [hm] at h
      simp only [limitStage, optTruthy] at h
      cases Except.ok.inj h
      simp [length_sortThoughts]

/-- C4 counterexample: with the seeded five-record store and `limit=2`,
the reported total is 2 (the truncated length), not the pre-limit match
count 5 — refuting "the total equals the number of matching records
before the limit". -/
theorem C4_counterexample :
    get_thoughts seededThoughts none none (some "2") none none =
      .ok { total := 2, thoughts := seededThoughts.take 2 } ∧
    (applyAuthorFilter none (applyTagFilter none seededThoughts)).length = 5 :=
  ⟨by decide, by decide⟩

/-- C4 witness: the amended theorem applied to a call with the min_tags
filter supplied and no limit — the total equals the pre-limit count of
the four seeded records carrying at least two tags. -/
theorem C4_witness :
    get_thoughts seededThoughts none none none none (some "2") =
      .ok { total := 4,
            thoughts := seededThoughts.filter (fun t => (2 : Int) ≤ (t.tags.length : Int)) } ∧
    minTagsStage (applyAuthorFilter none (applyTagFilter none seededThoughts)) (some "2") =
      .ok (seededThoughts.filter (fun t => (2 : Int) ≤ (t.tags.length : Int))) ∧
    ({ total := 4,
       thoughts := seededThoughts.filter (fun t => (2 : Int) ≤ (t.tags.length : Int)) } :
      ListResult).total =
      (seededThoughts.filter (fun t => (2 : Int) ≤ (t.tags.length : Int))).length :=
  ⟨by decide, by decide,
   (C4_total_post_limit seededThoughts none none none none (some "2")
      { total := 4,
        thoughts := seededThoughts.filter (fun t => (2 : Int) ≤ (t.tags.length : Int)) }
      (by decide)).2 rfl
      (seededThoughts.filter (fun t => (2 : Int) ≤ (t.tags.length : Int))) (by decide)⟩

/-- C5 (corrected by amendment): the author filter is an exact,
case-sensitive equality test `t["author"] == author_filter`, not the
case-insensitive substring match the spec describes: with only a truthy
author parameter, the call succeeds and returns exactly (sorted by id) the
stored records whose author equals the parameter. -/
theorem C5_author_exact_match (storage : List Thought) (a : String) (ha : a ≠ "") :
    get_thoughts storage none (some a) none none none =
      .ok { total := (pySortBy (fun x y => decide (x.id ≤ y.id))
                       (storage.filter (fun t => t.author == a))).length,
            thoughts := pySortBy (fun x y => decide (x.id ≤ y.id))
                       (storage.filter (fun t => t.author == a)) } ∧
    ∀ t, (t ∈ pySortBy (fun x y => decide (x.id ≤ y.id))
            (storage.filter (fun t => t.author == a))) ↔ t ∈ storage ∧ t.author = a := by
  have he : (a == "") = false := beq_eq_false_iff_ne.mpr ha
  constructor
  · unfold get_thoughts
    simp [minTagsStage, limitStage, optTruthy, applyTagFilter, applyAuthorFilter,
          sortThoughts, he, ha]
  · intro t
    rw [mem_pySortBy]
    simp [List.mem_filter]

/-- C5 counterexample: `author=ali` matches no record although the seeded
store holds records whose author "Alice" contains "ali" case-insensitively
— the spec's predicate and the code disagree at this input. -/
theorem C5_counterexample :
    spec_author_matches "ali" "Alice" = true ∧
    get_thoughts seededThoughts none (some "ali") none none none =
      .ok { total := 0, thoughts := [] } :=
  ⟨by decide, by decide⟩

/-- C5 witness: the amended theorem applied to the seeded store and
author "Alice". -/
theorem C5_witness :
    ("Alice" : String) ≠ "" ∧
    (get_thoughts seededThoughts none (some "Alice") none none none =
       .ok { total := (pySortBy (fun x y => decide (x.id ≤ y.id))
                        (seededThoughts.filter (fun t => t.author == "Alice"))).length,
             thoughts := pySortBy (fun x y => decide (x.id ≤ y.id))
                        (seededThoughts.filter (fun t => t.author == "Alice")) } ∧
     ∀ t, (t ∈ pySortBy (fun x y => decide (x.id ≤ y.id))
             (seededThoughts.filter (fun t => t.author == "Alice"))) ↔
           t ∈ seededThoughts ∧ t.author = "Alice") :=
  ⟨by decide, C5_author_exact_match seededThoughts "Alice" (by decide)⟩

/-- C6 (corrected by amendment): a truthy limit value that Python `int`
cannot parse is rejected with the 400 "Limit must be a number" error, but
any string `int` does parse — negative integers included — is accepted and
applied as a Python slice, so `limit=-1` silently drops the last element
instead of failing. -/
theorem C6_limit_parse (storage : List Thought) (tagF authorF : Option String)
    (s : String) (hs : s ≠ "") :
    (pyParseInt s = none →
      get_thoughts storage tagF authorF (some s) none none =
        .error (400, "Limit must be a number")) ∧
    (∀ n : Int, pyParseInt s = some n →
      get_thoughts storage none none (some s) none none =
        .ok { total := (pySliceTo (sortThoughts "id" storage) n).length,
              thoughts := pySliceTo (sortThoughts "id" storage) n }) := by
  have he : (s == "") = false := beq_eq_false_iff_ne.mpr hs
  constructor
  · intro hp
    unfold get_thoughts
    simp [minTagsStage, limitStage, optTruthy, he, hp]
  · intro n hp
    unfold get_thoughts
    simp [minTagsStage, limitStage, optTruthy, applyTagFilter, applyAuthorFilter, he, hp]

/-- C6 counterexample: `limit="-1"` is not rejected: the call succeeds and
returns the first four of the five seeded records (Python slice `[:-1]`),
refuting "every limit that does not parse as a NON-NEGATIVE integer fails
with a 400-class error". -/
theorem C6_counterexample :
    get_thoughts seededThoughts none none (some "-1") none none =
      .ok { total := 4, thoughts := seededThoughts.take 4 } := by
  decide

/-- C6 witness: the amended theorem applied to the non-numeric limit
"abc" and the negative limit "-1". -/
theorem C6_witness :
    (("abc" : String) ≠ "" ∧ pyParseInt "abc" = none ∧
     get_thoughts seededThoughts none none (some "abc") none none =
       .error (400, "Limit must be a number")) ∧
    (("-1" : String) ≠ "" ∧ pyParseInt "-1" = some (-1) ∧
     get_thoughts seededThoughts none none (some "-1") none none =
       .ok { total := (pySliceTo (sortThoughts "id" seededThoughts) (-1)).length,
             thoughts := pySliceTo (sortThoughts "id" seededThoughts) (-1) }) :=
  ⟨⟨by decide, by decide,
    (C6_limit_parse seededThoughts none none "abc" (by decide)).1 (by decide)⟩,
   ⟨by decide, by decide,
    (C6_limit_parse seededThoughts none none "-1" (by decide)).2 (-1) (by decide)⟩⟩

/-- C9 (corrected by amendment): the week-2 handler rejects an unknown
sort field with a 400 error, and the ORM model's `validate_sort_field`
falls back silently to `created_at`; but `ThoughtRepository.get_all` in
the ORM backend skips that validation (it is commented out as a TODO), so
an unknown sort field there raises inside the `try` and surfaces as a
`DatabaseError` — a 500-class outcome the claim ruled out. -/
theorem C9_sort_field_outcomes :
    (∀ (storage : List Thought) (tagF authorF limitF minTagsF : Option String) (f : String),
       (f == "id" || f == "author" || f == "timestamp") = false →
       get_thoughts storage tagF authorF limitF (some f) minTagsF =
         .error (400, "Sort must be one of: id, author, timestamp")) ∧
    (∀ f, ormAttrs.contains f = false → validate_sort_field f = "created_at") ∧
    (∀ (st : OrmStore) (f ord : String) (lim off : Nat), ormAttrs.contains f = false →
       ormGetAll st f ord lim off =
         .error (.databaseError
           ("Failed to retrieve thoughts: type object Thought has no attribute " ++ f)) ∧
       dbErrStatus (.databaseError
           ("Failed to retrieve thoughts: type object Thought has no attribute " ++ f)) = 500) := by
  refine ⟨?_, ?_, ?_⟩
  · intro storage tagF authorF limitF minTagsF f hf
    unfold get_thoughts
    simp only [Option.getD] at *
    simp [hf]
  · intro f hf
    have hf2 : f ∉ ormAttrs := by simpa using hf
    unfold validate_sort_field
    simp [hf2]
  · intro st f ord lim off hf
    have hf2 : f ∉ ormAttrs := by simpa using hf
    refine ⟨?_, rfl⟩
    unfold ormGetAll
    simp [hf2]

/-- C9 counterexample: the ORM `get_all` with the unknown sort field
"bogus" returns `DatabaseError` (500-class), not a silent fallback and
not a 400 rejection. -/
theorem C9_counterexample :
    ormGetAll { rows := [], next_id := 1 } "bogus" "DESC" 10 0 =
      .error (.databaseError
        "Failed to retrieve thoughts: type object Thought has no attribute bogus") ∧
    dbErrStatus (.databaseError
        "Failed to retrieve thoughts: type object Thought has no attribute bogus") = 500 :=
  ⟨by decide, rfl⟩

/-- C9 witness: the amended conjuncts applied to the unknown field
"banana". -/
theorem C9_witness :
    (("banana" == "id" || "banana" == "author" || "banana" == "timestamp") = false ∧
     get_thoughts seededThoughts none none none (some "banana") none =
       .error (400, "Sort must be one of: id, author, timestamp")) ∧
    (ormAttrs.contains "banana" = false ∧ validate_sort_field "banana" = "created_at") ∧
    (ormGetAll { rows := [], next_id := 1 } "banana" "ASC" 10 0 =
       .error (.databaseError
         ("Failed to retrieve thoughts: type object Thought has no attribute " ++ "banana")) ∧
     dbErrStatus (.databaseError
         ("Failed to retrieve thoughts: type object Thought has no attribute " ++ "banana")) = 500) :=
  ⟨⟨by decide,
    C9_sort_field_outcomes.1 seededThoughts none none none none "banana" (by decide)⟩,
   ⟨by decide, C9_sort_field_outcomes.2.1 "banana" (by decide)⟩,
   C9_sort_field_outcomes.2.2 { rows := [], next_id := 1 } "banana" "ASC" 10 0 (by decide)⟩

theorem checkTags_isSome_of_bad (l : List TagVal) (t : String)
    (hmem : TagVal.tstr t ∈ l) (hbad : (pyStrip t).length < 2 ∨ 20 < t.length) :
    (checkTags l).isSome = true := by
  induction l with
  | nil => cases hmem
  | cons x rest ih =>
      rcases List.mem_cons.mp hmem with h1 | h1
      · cases h1
        simp only [checkTags]
        rcases hbad with hb | hb <;> (repeat' split) <;> simp
      · cases x with
        | tother k => simp [checkTags]
        | tstr s =>
            simp only [checkTags]
            (repeat' split) <;> first | simp | exact ih h1

theorem checkTags_not_len_msgs (l : List TagVal)
    (hgood : ∀ t : String, TagVal.tstr t ∈ l → 2 ≤ (pyStrip t).length ∧ t.length ≤ 20) :
    checkTags l ≠ some "Each tag must be at least 2 characters long" ∧
    checkTags l ≠ some "Each tag must not exceed 20 characters" := by
  induction l with
  | nil => exact ⟨by decide, by decide⟩
  | cons x rest ih =>
      cases x with
      | tother k => refine ⟨?_, ?_⟩ <;> simp [checkTags]
      | tstr s =>
          have hs := hgood s (List.mem_cons_self _ _)
          have hrest := fun t ht => hgood t (List.mem_cons_of_mem _ ht)
          simp only [checkTags]
          split
          · omega
          · split
            · omega
            · split
              · exact ⟨by decide, by decide⟩
              · exact ih hrest

theorem validateText_not_len_msgs (c : Candidate) (b : Bool) :
    validateText c b ≠ some "Each tag must be at least 2 characters long" ∧
    validateText c b ≠ some "Each tag must not exceed 20 characters" := by
  unfold validateText
  repeat' split
  all_goals exact ⟨by decide, by decide⟩

/-- C8 (corrected by amendment): the minimum tag length is judged on the
TRIMMED tag but the maximum on the RAW tag: any candidate whose tags list
contains a string tag with trimmed length < 2 or raw length > 20 is
Invalid, and when every string tag has trimmed length ≥ 2 and raw length
≤ 20 the validator never returns either length message.  A tag padded
with whitespace can therefore be rejected for length although its trimmed
length lies within [2,20] — see the counterexample. -/
theorem C8_tag_length_bounds :
    (∀ (c : Candidate) (l : List TagVal) (t : String) (b : Bool),
       c.tags = some (.blist l) → TagVal.tstr t ∈ l →
       ((pyStrip t).length < 2 ∨ 20 < t.length) →
       validate_thought_data (some c) b ≠ none) ∧
    (∀ (c : Candidate) (l : List TagVal) (b : Bool),
       c.tags = some (.blist l) →
       (∀ t : String, TagVal.tstr t ∈ l → 2 ≤ (pyStrip t).length ∧ t.length ≤ 20) →
       validate_thought_data (some c) b ≠
         some "Each tag must be at least 2 characters long" ∧
       validate_thought_data (some c) b ≠
         some "Each tag must not exceed 20 characters") := by
  constructor
  · intro c l t b htags hmem hbad
    have hne : c.isEmptyDict = false := by
      simp [Candidate.isEmptyDict, htags]
    have hsome := checkTags_isSome_of_bad l t hmem hbad
    unfold validate_thought_data
    simp only [hne, Bool.false_eq_true, if_false]
    cases hvt : validateText c b with
    | some e => simp
    | none =>
        simp only [validateTags, htags]
        split
        · simp
        · split
          · simp
          · split
            · simp
            · intro hn
              rw [hn] at hsome
              simp at hsome
  · intro c l b htags hgood
    have hne : c.isEmptyDict = false := by
      simp [Candidate.isEmptyDict, htags]
    have hck := checkTags_not_len_msgs l hgood
    have hvtm := validateText_not_len_msgs c b
    unfold validate_thought_data
    simp only [hne, Bool.false_eq_true, if_false]
    cases hvt : validateText c b with
    | some e =>
        rw [hvt] at hvtm
        simpa using hvtm
    | none =>
        simp only [validateTags, htags]
        split
        · exact ⟨by decide, by decide⟩
        · split
          · exact ⟨by decide, by decide⟩
          · split
            · exact ⟨by decide, by decide⟩
            · exact hck

/-- C8 counterexample: a tag of 20 letters plus one trailing space has
trimmed length 20 (within [2,20]) yet is rejected with the maximum-length
message, because the maximum is checked on the raw tag. -/
theorem C8_counterexample :
    (2 ≤ (pyStrip "aaaaaaaaaaaaaaaaaaaa ").length ∧
      (pyStrip "aaaaaaaaaaaaaaaaaaaa ").length ≤ 20) ∧
    validate_thought_data (some paddedTagBody) false =
      some "Each tag must not exceed 20 characters" :=
  ⟨by decide, by decide⟩

/-- C8 witness: the amended conjuncts applied to the padded tag and to a
well-formed tag. -/
theorem C8_witness :
    (paddedTagBody.tags = some (.blist [.tstr "aaaaaaaaaaaaaaaaaaaa "]) ∧
     TagVal.tstr "aaaaaaaaaaaaaaaaaaaa " ∈ [TagVal.tstr "aaaaaaaaaaaaaaaaaaaa "] ∧
     ((pyStrip "aaaaaaaaaaaaaaaaaaaa ").length < 2 ∨ 20 < "aaaaaaaaaaaaaaaaaaaa ".length) ∧
     validate_thought_data (some paddedTagBody) false ≠ none) ∧
    (validate_thought_data (some goodTagBody) false ≠
       some "Each tag must be at least 2 characters long" ∧
     validate_thought_data (some goodTagBody) false ≠
       some "Each tag must not exceed 20 characters") :=
  ⟨⟨rfl, by decide, by decide,
    C8_tag_length_bounds.1 paddedTagBody [.tstr "aaaaaaaaaaaaaaaaaaaa "]
      "aaaaaaaaaaaaaaaaaaaa " false rfl (by decide) (by decide)⟩,
   C8_tag_length_bounds.2 goodTagBody [.tstr "tag-one"] false rfl
     (by intro t ht; simp at ht; subst ht; exact ⟨by decide, by decide⟩)⟩

theorem firstSomeIdx_shift (f : a → Option String) (n : Nat) (l : List a) :
    firstSomeIdx f n l = (firstSomeIdx f 0 l).map (fun p => (p.1 + n, p.2)) := by
  induction l generalizing n with
  | nil => rfl
  | cons c rest ih =>
      simp only [firstSomeIdx]
      cases f c with
      | some e => simp
      | none =>
          rw [ih (n + 1), ih 1]
          cases firstSomeIdx f 0 rest with
          | none => simp
          | some p => simp; omega

theorem firstSomeIdx_eq (f : a → Option String) (l : List a) (i : Nat) (ci : a) (e : String)
    (hget : l.get? i = some ci) (hval : f ci = some e)
    (hpre : (l.take i).all (fun c => (f c).isNone) = true) :
    firstSomeIdx f 0 l = some (i, e) := by
  induction l generalizing i with
  | nil => simp at hget
  | cons c rest ih =>
      cases i with
      | zero =>
          simp only [List.get?_cons_zero, Option.some.injEq] at hget
          subst hget
          simp [firstSomeIdx, hval]
      | succ k =>
          simp only [List.get?_cons_succ] at hget
          simp only [List.take_succ_cons, List.all_cons, Bool.and_eq_true] at hpre
          have hc : f c = none := Option.isNone_iff_eq_none.mp hpre.1
          simp only [firstSomeIdx, hc]
          rw [firstSomeIdx_shift f 1 rest, ih k hget hpre.2]
          rfl

/-- C1 (corrected by amendment): in both week-3 backends, a list holding an
invalid candidate makes `create_bulk` fail with a `ValidationError` naming
the first offending 1-based index and leaves the store untouched (no
partial write); the raw-SQL backend additionally rejects empty lists and
lists longer than 100 before any write, but the ORM repository's
`create_bulk` has no length cap at all (and maps an empty list to an empty
result instead of an error) — see the counterexample. -/
theorem C1_create_bulk :
    (∀ (st : RawStore) (l : List RawCand) (now : String) (i : Nat) (ci : RawCand) (e : String),
       l.length ≤ 100 → l.get? i = some ci → rawValidate ci = some e →
       (l.take i).all (fun c => (rawValidate c).isNone) = true →
       rawCreateBulk st l now =
         (st, .error (.validationError
           ("Validation failed for thought " ++ toString (i + 1) ++ ": " ++ e)))) ∧
    (∀ (st : RawStore) (l : List RawCand) (now : String), 100 < l.length →
       rawCreateBulk st l now =
         (st, .error (.validationError "Cannot create more than 100 thoughts at once"))) ∧
    (∀ (st : RawStore) (now : String),
       rawCreateBulk st [] now =
         (st, .error (.validationError "Thoughts list cannot be empty"))) ∧
    (∀ (st : OrmStore) (l : List OrmCand) (now : String) (i : Nat) (ci : OrmCand) (e : String),
       l.get? i = some ci → ormFromDictErr ci = some e →
       (l.take i).all (fun c => (ormFromDictErr c).isNone) = true →
       ormCreateBulk st l now =
         (st, .error (.validationError
           ("Invalid data for thought " ++ toString (i + 1) ++ ": " ++ e)))) ∧
    (∀ (st : OrmStore) (now : String), ormCreateBulk st [] now = (st, .ok [])) := by
  refine ⟨?_, ?_, ?_, ?_, ?_⟩
  · intro st l now i ci e hlen hget hval hpre
    have hfirst : firstInvalidRaw 0 l = some (i, e) :=
      firstSomeIdx_eq rawValidate l i ci e hget hval hpre
    have hne : l.isEmpty = false := by
      cases l with
      | nil => simp at hget
      | cons c rest => rfl
    unfold rawCreateBulk
    simp [hne, show ¬(l.length > 100) from by omega, hfirst]
  · intro st l now hlen
    have hne : l.isEmpty = false := by
      cases l with
      | nil => simp at hlen
      | cons c rest => rfl
    unfold rawCreateBulk
    simp [hne, hlen]
  · intro st now
    rfl
  · intro st l now i ci e hget hval hpre
    have hfirst : firstInvalidOrm 0 l = some (i, e) :=
      firstSomeIdx_eq ormFromDictErr l i ci e hget hval hpre
    have hne : l.isEmpty = false := by
      cases l with
      | nil => simp at hget
      | cons c rest => rfl
    unfold ormCreateBulk
    simp [hne, hfirst]
  · intro st now
    rfl

/-- C1 counterexample: the ORM `create_bulk` accepts a list of 101 valid
candidates — all 101 rows are written — although the claim requires any
list longer than 100 to be rejected with `ValidationError` before any
write. -/
theorem C1_counterexample :
    (ormCreateBulk { rows := [], next_id := 1 }
       (List.replicate 101 ormValidCand) "T0").2 =
      .ok (ormRowsFrom 1 "T0" (List.replicate 101 ormValidCand)) ∧
    (ormCreateBulk { rows := [], next_id := 1 }
       (List.replicate 101 ormValidCand) "T0").1.rows.length = 101 :=
  ⟨by decide, by decide⟩

/-- C1 witness: the amended conjuncts applied to concrete two-element
lists with the second candidate invalid, the over-100 raw case, and the
empty lists. -/
theorem C1_witness :
    ([rawValidCand, rawBadCand].length ≤ 100 ∧
     [rawValidCand, rawBadCand].get? 1 = some rawBadCand ∧
     rawValidate rawBadCand = some "Text is required" ∧
     ([rawValidCand, rawBadCand].take 1).all (fun c => (rawValidate c).isNone) = true ∧
     rawCreateBulk { rows := [], next_id := 1 } [rawValidCand, rawBadCand] "T0" =
       ({ rows := [], next_id := 1 }, .error (.validationError
         ("Validation failed for thought " ++ toString (1 + 1) ++ ": " ++ "Text is required")))) ∧
    (100 < (List.replicate 101 rawValidCand).length ∧
     rawCreateBulk { rows := [], next_id := 1 } (List.replicate 101 rawValidCand) "T0" =
       ({ rows := [], next_id := 1 },
        .error (.validationError "Cannot create more than 100 thoughts at once"))) ∧
    (ormCreateBulk { rows := [], next_id := 1 } [ormValidCand, ormBadCand] "T0" =
       ({ rows := [], next_id := 1 }, .error (.validationError
         ("Invalid data for thought " ++ toString (1 + 1) ++ ": " ++ "Text field is required")))) ∧
    rawCreateBulk { rows := [], next_id := 1 } [] "T0" =
      ({ rows := [], next_id := 1 }, .error (.validationError "Thoughts list cannot be empty")) ∧
    ormCreateBulk { rows := [], next_id := 1 } [] "T0" = ({ rows := [], next_id := 1 }, .ok []) :=
  ⟨⟨by decide, by decide, by decide, by decide,
    C1_create_bulk.1 { rows := [], next_id := 1 } [rawValidCand, rawBadCand] "T0" 1
      rawBadCand "Text is required" (by decide) (by decide) (by decide) (by decide)⟩,
   ⟨by decide,
    C1_create_bulk.2.1 { rows := [], next_id := 1 } (List.replicate 101 rawValidCand) "T0"
      (by decide)⟩,
   C1_create_bulk.2.2.2.1 { rows := [], next_id := 1 } [ormValidCand, ormBadCand] "T0" 1
     ormBadCand "Text field is required" (by decide) (by decide) (by decide),
   C1_create_bulk.2.2.1 { rows := [], next_id := 1 } "T0",
   C1_create_bulk.2.2.2.2 { rows := [], next_id := 1 } "T0"⟩
